import Mathlib

/-!
Verification development for the Music-Genre-Classification repository
(multi-GPU CIFAR-10 / ImageNet training example scripts).

The repository has three Python scripts:
  * `keras_tf_multigpu/examples/alexnet_cifar10.py` — AlexNet-like model
    on CIFAR-10, optional data augmentation (namespace `Alexnet`);
  * `keras_tf_multigpu/examples/avolkov1/cifar/cifar10_cnn_mgpu_tfqueue.py`
    — multi-GPU CNN on CIFAR-10 fed by tensorflow queues
    (namespace `Mgpu`);
  * `keras_tf_multigpu/examples/bzamecnik/staging_area_feed_dict/keras_staging_area_resnet50.py`
    — ResNet50 on synthetic ImageNet with a staging-area callback
    (namespace `Resnet50`).

The embedding below translates the control flow and dataflow of those
scripts that the claims are about: command-line parsing, dataset label
preprocessing, model construction and weight loading, the choice between
single-GPU and multi-GPU compiled models, the callback lists handed to
`fit`, checkpoint-file save/load paths, hyperparameter scaling with the
GPU count, and the queue-runner thread start/join trace.
-/

/-- Keras `to_categorical(y, num_classes)`: each integer class label is
converted to a one-hot row of length `num_classes` (entry 1 at the label
index, 0 elsewhere).  Used by both CIFAR-10 scripts. -/
def to_categorical (y : List Nat) (numClasses : Nat) : List (List Nat) :=
  y.map (fun lab => (List.range numClasses).map (fun j => if j = lab then 1 else 0))

/-- An image is modelled as its flat list of pixel values (rationals in
place of the scripts' float32 values). -/
abbrev Image : Type := List ℚ

/-- `x.astype(float32) / 255` pixel scaling applied to one image. -/
def scale_image (img : Image) : Image :=
  List.map (fun v => v / 255) img

namespace Alexnet

/-- `num_classes = 10` (module-level constant of alexnet_cifar10.py). -/
def num_classes : Nat := 10

/-- `load_data()` of alexnet_cifar10.py, parameterised by the raw arrays
that the external `cifar10.load_data()` returns: scales the pixel arrays
by 255 and converts both label vectors to one-hot matrices, returning
`((x_train, x_test), (y_train, y_test))`. -/
def load_data (raw : (List Image × List Nat) × (List Image × List Nat)) :
    (List Image × List Image) × (List (List Nat) × List (List Nat)) :=
  let x_train := (raw.1.1).map scale_image
  let x_test := (raw.2.1).map scale_image
  let y_train := to_categorical raw.1.2 num_classes
  let y_test := to_categorical raw.2.2 num_classes
  ((x_train, x_test), (y_train, y_test))

/-- Python truthiness of a string: `bool(s)` is `False` exactly for the
empty string.  This is what `argparse` applies to the command-line token
when an argument is declared with `type=bool`. -/
def pythonBoolOfString (s : String) : Bool := s ≠ ""

/-- The parsed value of `--augment-data` (declared with `default=True,
type=bool` in `parse_args`): absent flag yields the default `True`; a
given token `s` yields `bool(s)`. -/
def parse_augment_data (cliValue : Option String) : Bool :=
  match cliValue with
  | none => true
  | some s => pythonBoolOfString s

/-- References to the in-memory arrays of the script, as they appear in
the arguments of `fit` / `fit_generator`. -/
inductive DataRef where
  | xTrainRef
  | yTrainRef
  | xTestRef
  | yTestRef
deriving DecidableEq

/-- The `ImageDataGenerator(...)` keyword configuration built in `train`
when augmentation is enabled. -/
structure ImageDataGeneratorCfg where
  featurewise_center : Bool
  samplewise_center : Bool
  featurewise_std_normalization : Bool
  samplewise_std_normalization : Bool
  zca_whitening : Bool
  rotation_range : Nat
  width_shift_range : ℚ
  height_shift_range : ℚ
  horizontal_flip : Bool
  vertical_flip : Bool
deriving DecidableEq

/-- The exact `ImageDataGenerator` configuration written in `train`. -/
def datagen : ImageDataGeneratorCfg :=
  { featurewise_center := false
    samplewise_center := false
    featurewise_std_normalization := false
    samplewise_std_normalization := false
    zca_whitening := false
    rotation_range := 0
    width_shift_range := 1/10
    height_shift_range := 1/10
    horizontal_flip := true
    vertical_flip := false }

/-- The training-loop invocation performed by `train`: either
`model.fit(x, y, batch_size, epochs, validation_data, shuffle)` or
`model.fit_generator(datagen.flow(x, y, batch_size), steps_per_epoch,
epochs, validation_data)`. -/
inductive TrainCall where
  | fit (x y : DataRef) (batchSize epochs : Nat)
      (validation : Option (DataRef × DataRef)) (shuffle : Bool)
  | fitGenerator (cfg : ImageDataGeneratorCfg) (flowX flowY : DataRef)
      (flowBatchSize stepsPerEpoch epochs : Nat)
      (validation : Option (DataRef × DataRef))
deriving DecidableEq

/-- `train(model, data, batch_size, epochs)` of alexnet_cifar10.py.
The module-level global `data_augmentation` that the function reads is
passed explicitly; `nTrain` stands for `x_train.shape[0]`.  With
augmentation off it calls plain `fit` on the arrays (`shuffle=True`,
test arrays as validation data); with augmentation on it calls
`fit_generator` on `datagen.flow(x_train, y_train, batch_size)` with
`steps_per_epoch = x_train.shape[0] // batch_size`. -/
def train (data_augmentation : Bool) (nTrain batch_size epochs : Nat) : TrainCall :=
  if ¬ data_augmentation then
    TrainCall.fit DataRef.xTrainRef DataRef.yTrainRef batch_size epochs
      (some (DataRef.xTestRef, DataRef.yTestRef)) true
  else
    TrainCall.fitGenerator datagen DataRef.xTrainRef DataRef.yTrainRef
      batch_size (nTrain / batch_size) epochs
      (some (DataRef.xTestRef, DataRef.yTestRef))

end Alexnet

namespace Mgpu

/-- Module-level constant `checkptfile` of cifar10_cnn_mgpu_tfqueue.py. -/
def checkptfile : String := "cifar10_cnn_tfrecord.weights.hdf5"

/-- `num_classes = 10` in `main`. -/
def num_classes : Nat := 10

/-- The three command-line forms of the `--checkpt` argument, declared
with `nargs=?, const=checkptfile, default=SUPPRESS`: the flag may be
absent, given bare, or given with a path. -/
inductive CheckptArg where
  | absent
  | flagOnly
  | flagWith (path : String)
deriving DecidableEq

/-- The parsed `checkpt` value `getattr(args, checkpt, None)`: `None`
when the flag is absent (SUPPRESS), the `const` default file when the
flag is given bare, and the user path otherwise. -/
def parse_checkpt : CheckptArg → Option String
  | CheckptArg.absent => none
  | CheckptArg.flagOnly => some checkptfile
  | CheckptArg.flagWith p => some p

/-- `checkpt_flag = False if checkpt is None else True`. -/
def checkpt_flag (a : CheckptArg) : Bool := (parse_checkpt a).isSome

/-- `batch_size_1gpu = 512`. -/
def batch_size_1gpu : Nat := 512

/-- `batch_size = batch_size_1gpu * ngpus`. -/
def batch_size (ngpus : Nat) : Nat := batch_size_1gpu * ngpus

/-- `lr = 0.0001 * ngpus` (the RMSprop learning rate, as an exact
rational). -/
def lr (ngpus : Nat) : ℚ := (1 / 10000) * ngpus

/-- `steps_per_epoch = train_samples // batch_size`. -/
def steps_per_epoch (train_samples ngpus : Nat) : Nat :=
  train_samples / batch_size ngpus

/-- Preprocessing of one split in `main` (lines around
`y_train = to_categorical(y_train, num_classes)`): pixels are cast to
float and divided by 255, labels are converted to one-hot rows. -/
def preprocess (x : List Image) (y : List Nat) :
    List Image × List (List Nat) :=
  (x.map scale_image, to_categorical y num_classes)

/-- The callbacks that can appear in the script's `callbacks` list:
`SamplesPerSec(batch_size)` and
`ModelCheckpoint(filepath, monitor=acc, verbose=1, save_best_only=True)`. -/
inductive Callback where
  | samplesPerSec (batchSize : Nat)
  | modelCheckpoint (filepath : String) (monitor : String) (save_best_only : Bool)
deriving DecidableEq

/-- The `callbacks` list passed to `model.fit`: it is initialised to
`[gauge]` with `gauge = SamplesPerSec(batch_size)`, and when
`checkpt_flag` holds it is reassigned to `[checkpoint]`, replacing the
gauge. -/
def fit_callbacks (a : CheckptArg) (ngpus : Nat) : List Callback :=
  let gauge := Callback.samplesPerSec (batch_size ngpus)
  let callbacks := [gauge]
  match parse_checkpt a with
  | some filepath => [Callback.modelCheckpoint filepath "acc" true]
  | none => callbacks

/-- Whether a `SamplesPerSec` gauge occurs in a callback list. -/
def containsGauge (cbs : List Callback) : Bool :=
  cbs.any fun c =>
    match c with
    | Callback.samplesPerSec _ => true
    | _ => false

/-- The file that receives the trained model's weights: with
`checkpt_flag` the `ModelCheckpoint(filepath)` callback writes
`filepath` during `fit`; otherwise `model.save_weights(checkptfile)`
runs right after `fit`. -/
def weights_file_written (a : CheckptArg) : String :=
  match parse_checkpt a with
  | some filepath => filepath
  | none => checkptfile

/-- The file the second-session evaluation model loads:
`weights_file = checkptfile` is assigned unconditionally and
`test_model.load_weights(weights_file)` reads it. -/
def eval_weights_file (_a : CheckptArg) : String := checkptfile

/-- The `train_input` parameter of `make_model`: either a tensorflow
tensor (the queue batch) or a plain shape tuple. -/
inductive TrainInput where
  | tensor
  | shape (dims : List Nat)
deriving DecidableEq

/-- The layer kinds added by `make_model`. -/
inductive Layer where
  | inputLayerTensor
  | inputLayerShape (dims : List Nat)
  | conv2D (filters : Nat) (kernel : Nat × Nat) (samePadding : Bool)
  | activation (fname : String)
  | maxPooling2D (pool : Nat × Nat)
  | dropout (rate : ℚ)
  | flatten
  | dense (units : Nat)
deriving DecidableEq

/-- The sequential model built by `make_model`: its layer stack and the
file its weights were loaded from, if any. -/
structure SeqModel where
  layers : List Layer
  loaded_from : Option String
deriving DecidableEq

/-- The layer stack that `make_model` adds, in source order. -/
def model_layers (train_input : TrainInput) (numClasses : Nat) : List Layer :=
  [ (match train_input with
      | TrainInput.tensor => Layer.inputLayerTensor
      | TrainInput.shape d => Layer.inputLayerShape d),
    Layer.conv2D 32 (3, 3) true, Layer.activation "relu",
    Layer.conv2D 32 (3, 3) false, Layer.activation "relu",
    Layer.maxPooling2D (2, 2), Layer.dropout (1/4),
    Layer.conv2D 64 (3, 3) true, Layer.activation "relu",
    Layer.conv2D 64 (3, 3) false, Layer.activation "relu",
    Layer.maxPooling2D (2, 2), Layer.dropout (1/4),
    Layer.flatten, Layer.dense 512, Layer.activation "relu",
    Layer.dropout (1/2),
    Layer.dense numClasses, Layer.activation "softmax" ]

/-- `model.load_weights(f)`: fails when no file exists at `f`,
otherwise records the loaded file.  The filesystem is passed as the
predicate `fileExists` (the script's `os.path.exists`). -/
def load_weights (fileExists : String → Bool) (m : SeqModel) (f : String) :
    Except String SeqModel :=
  if fileExists f then Except.ok { m with loaded_from := some f }
  else Except.error "weights file not found"

/-- `make_model(train_input, num_classes, weights_file)`: builds the
layer stack, then loads weights only under the guard
`weights_file is not None and os.path.exists(weights_file)`. -/
def make_model (fileExists : String → Bool) (train_input : TrainInput)
    (numClasses : Nat) (weights_file : Option String) :
    Except String SeqModel :=
  let model : SeqModel :=
    { layers := model_layers train_input numClasses, loaded_from := none }
  match weights_file with
  | some f =>
      if fileExists f then load_weights fileExists model f
      else Except.ok model
  | none => Except.ok model

/-- The model object that gets compiled and trained: either
`make_parallel(model_init, gdev_list)` or the re-instantiated
single-GPU functional `Model(inputs=[x_train_input], outputs=[x_train_out])`
over the same base. -/
inductive CompiledModel where
  | parallel (base : SeqModel) (gdev_list : List String)
  | functionalSingle (base : SeqModel)
deriving DecidableEq

/-- The branch on `ngpus > 1` in `main`, with
`ngpus = len(gdev_list)`. -/
def model_for_training (model_init : SeqModel) (gdev_list : List String) :
    CompiledModel :=
  if gdev_list.length > 1 then CompiledModel.parallel model_init gdev_list
  else CompiledModel.functionalSingle model_init

/-- The queue runners registered in the graph built by `main`: two
`tf.train.slice_input_producer` calls (train and test) and two
`tf.train.batch` calls (train and test). -/
inductive QRunner where
  | sliceInputTrain
  | sliceInputTest
  | batchTrain
  | batchTest
deriving DecidableEq

/-- The graph's queue-runner collection, in creation order. -/
def graph_queue_runners : List QRunner :=
  [QRunner.sliceInputTrain, QRunner.sliceInputTest,
   QRunner.batchTrain, QRunner.batchTest]

/-- A thread spawned by a `tf.train.start_queue_runners` invocation:
which invocation spawned it, which queue runner it serves, and whether
it was registered with a coordinator. -/
structure QThread where
  fromCall : Nat
  runner : QRunner
  coordRegistered : Bool
deriving DecidableEq

/-- One `tf.train.start_queue_runners` invocation: it spawns a fresh
thread for every queue runner in the graph collection, registered with
a coordinator exactly when one is passed. -/
def start_queue_runners (call : Nat) (withCoord : Bool) : List QThread :=
  graph_queue_runners.map fun r =>
    { fromCall := call, runner := r, coordRegistered := withCoord }

/-- All threads started by `main`: the first invocation
`tf.train.start_queue_runners(sess=sess)` passes no coordinator; the
second, `threads = tf.train.start_queue_runners(sess, coord)`, passes
`coord`. -/
def started_threads : List QThread :=
  start_queue_runners 1 false ++ start_queue_runners 2 true

/-- The threads joined at shutdown: `coord.join(threads)` joins exactly
the list returned by the second invocation. -/
def coord_joined_threads : List QThread := start_queue_runners 2 true

/-- The ordered shutdown-relevant events of `main`. -/
inductive MainEvent where
  | startQueueRunnersNoCoord
  | startQueueRunnersWithCoord
  | fitModel
  | requestStop
  | joinThreads
  | clearSession
deriving DecidableEq, BEq

/-- The order in which `main` performs the shutdown-relevant calls. -/
def main_event_trace : List MainEvent :=
  [MainEvent.startQueueRunnersNoCoord, MainEvent.startQueueRunnersWithCoord,
   MainEvent.fitModel, MainEvent.requestStop, MainEvent.joinThreads,
   MainEvent.clearSession]

end Mgpu

namespace Resnet50

/-- The module-level configuration constants of
keras_staging_area_resnet50.py (`num_classes`, `dataset_size`,
`batch_size`, `epochs`). -/
structure ModuleConfig where
  num_classes : Nat
  dataset_size : Nat
  batch_size : Nat
  epochs : Nat
deriving DecidableEq

/-- The values assigned at module level: 1000, 1024, 32, 5. -/
def module_config : ModuleConfig :=
  { num_classes := 1000, dataset_size := 1024, batch_size := 32, epochs := 5 }

end Resnet50

/-- The three scripts of the repository. -/
inductive Script where
  | alexnet_cifar10
  | cifar10_cnn_mgpu_tfqueue
  | keras_staging_area_resnet50
deriving DecidableEq

/-- Whether the script builds an `argparse` command-line parser.  The
AlexNet script calls `argparse.ArgumentParser` in `parse_args`; the
tfqueue script builds on the shared `parser_def_mgpu` parser in
`parser_`; the ResNet50 staging-area script parses no command line at
all and reads module-level constants instead. -/
def uses_argparse : Script → Bool
  | Script.alexnet_cifar10 => true
  | Script.cifar10_cnn_mgpu_tfqueue => true
  | Script.keras_staging_area_resnet50 => false

/-- The long option names of the command-line flags each script itself
declares with `add_argument` (for the tfqueue script, the flags it adds
on top of the shared multi-GPU parser). -/
def declared_flags : Script → List String
  | Script.alexnet_cifar10 => ["--augment-data", "--batch-size", "--epochs"]
  | Script.cifar10_cnn_mgpu_tfqueue => ["--checkpt", "--aug", "--logdevp", "--datadir"]
  | Script.keras_staging_area_resnet50 => []

/-- One label row is one-hot for 10 classes: length 10, exactly one
entry equal to 1, every entry 0 or 1. -/
def isOneHotRow (r : List Nat) : Bool :=
  r.length == 10 && r.count 1 == 1 && r.all (fun v => v == 0 || v == 1)

/-! ## Helper lemmas -/

theorem to_categorical_length (y : List Nat) (n : Nat) :
    (to_categorical y n).length = y.length :=
  List.length_map y _

theorem isOneHotRow_range (lab : Nat) (h : lab < 10) :
    isOneHotRow ((List.range 10).map (fun j => if j = lab then 1 else 0)) = true := by
  interval_cases lab <;> decide

theorem mem_to_categorical_ten (row : List Nat) (y : List Nat)
    (hlab : ∀ l ∈ y, l < 10) (hrow : row ∈ to_categorical y 10) :
    isOneHotRow row = true := by
  rcases List.mem_map.mp hrow with ⟨lab, hmem, rfl⟩
  exact isOneHotRow_range lab (hlab lab hmem)

/-! ## Claim theorems -/

/-- Claim C1, counterexample: with `--checkpt my_weights.h5` the trained
weights are written (by the `ModelCheckpoint` callback) to the
user-supplied path, but the second-session evaluation model loads from
the hard-coded default `checkptfile`, a different file. -/
theorem C1_counterexample :
    Mgpu.weights_file_written (Mgpu.CheckptArg.flagWith "my_weights.h5") = "my_weights.h5" ∧
    Mgpu.eval_weights_file (Mgpu.CheckptArg.flagWith "my_weights.h5") = Mgpu.checkptfile ∧
    Mgpu.weights_file_written (Mgpu.CheckptArg.flagWith "my_weights.h5") ≠
      Mgpu.eval_weights_file (Mgpu.CheckptArg.flagWith "my_weights.h5") := by
  decide

/-- Claim C1 (amended): the file written with the trained weights and
the file the evaluation model loads coincide exactly when `--checkpt`
is absent or names the default checkpoint file; a user-supplied path
different from the default is written but not read back. -/
theorem C1_checkpoint_roundtrip_amended (a : Mgpu.CheckptArg) :
    Mgpu.weights_file_written a = Mgpu.eval_weights_file a ↔
      (Mgpu.parse_checkpt a = none ∨ Mgpu.parse_checkpt a = some Mgpu.checkptfile) := by
  cases a <;>
    simp [Mgpu.weights_file_written, Mgpu.eval_weights_file, Mgpu.parse_checkpt]

/-- Claim C2, counterexample: when `--checkpt` is given (bare), the
`callbacks` list handed to `model.fit` is reassigned to contain only
the `ModelCheckpoint`; the `SamplesPerSec` gauge is not among the
callbacks. -/
theorem C2_counterexample :
    Mgpu.fit_callbacks Mgpu.CheckptArg.flagOnly 1 =
      [Mgpu.Callback.modelCheckpoint Mgpu.checkptfile "acc" true] ∧
    Mgpu.containsGauge (Mgpu.fit_callbacks Mgpu.CheckptArg.flagOnly 1) = false := by
  decide

/-- Claim C2 (amended): the `SamplesPerSec` gauge is among the
callbacks passed to `model.fit` exactly when the `--checkpt` flag is
absent; when the flag is given, the list is replaced by the
`ModelCheckpoint` alone. -/
theorem C2_gauge_amended (a : Mgpu.CheckptArg) (ngpus : Nat) :
    Mgpu.containsGauge (Mgpu.fit_callbacks a ngpus) = true ↔
      a = Mgpu.CheckptArg.absent := by
  cases a <;>
    simp [Mgpu.fit_callbacks, Mgpu.containsGauge, Mgpu.parse_checkpt]

/-- Claim C3, code behaviour at the failing input: `--augment-data` is
declared with `type=bool`, so argparse applies Python `bool()` to the
token; `bool("False")` and `bool("0")` are `True` (any non-empty string
is truthy) and only the empty string parses to `False`.  Passing the
false value `False` therefore runs training WITH real-time
augmentation (`fit_generator`), contradicting the toggle's intent. -/
theorem C3_code_behavior :
    Alexnet.parse_augment_data (some "False") = true ∧
    Alexnet.parse_augment_data (some "0") = true ∧
    Alexnet.parse_augment_data (some "") = false ∧
    Alexnet.train (Alexnet.parse_augment_data (some "False")) 50000 128 10 =
      Alexnet.TrainCall.fitGenerator Alexnet.datagen Alexnet.DataRef.xTrainRef
        Alexnet.DataRef.yTrainRef 128 390 10
        (some (Alexnet.DataRef.xTestRef, Alexnet.DataRef.yTestRef)) := by
  refine ⟨rfl, rfl, by decide, rfl⟩

/-- Claim C4, counterexample: the ResNet50 staging-area script builds
no command-line argument parser at all and declares no flags — in
particular none for batch size — so not every script accepts the
claimed flag set. -/
theorem C4_counterexample :
    uses_argparse Script.keras_staging_area_resnet50 = false ∧
    declared_flags Script.keras_staging_area_resnet50 = [] ∧
    "--batch-size" ∉ declared_flags Script.keras_staging_area_resnet50 := by
  decide

/-- Claim C4 (amended): the AlexNet script parses augmentation toggle,
batch size and epoch count flags (and none for checkpoint path, data
directory or GPU count); the tfqueue script adds checkpoint,
augmentation, device-logging and data-directory flags to a shared
multi-GPU parser; the ResNet50 staging-area script parses no command
line and takes batch size 32 and 5 epochs from module-level
constants. -/
theorem C4_cli_amended :
    uses_argparse Script.alexnet_cifar10 = true ∧
    declared_flags Script.alexnet_cifar10 = ["--augment-data", "--batch-size", "--epochs"] ∧
    "--checkpt" ∉ declared_flags Script.alexnet_cifar10 ∧
    "--datadir" ∉ declared_flags Script.alexnet_cifar10 ∧
    "--mgpu" ∉ declared_flags Script.alexnet_cifar10 ∧
    uses_argparse Script.cifar10_cnn_mgpu_tfqueue = true ∧
    declared_flags Script.cifar10_cnn_mgpu_tfqueue =
      ["--checkpt", "--aug", "--logdevp", "--datadir"] ∧
    uses_argparse Script.keras_staging_area_resnet50 = false ∧
    Resnet50.module_config.batch_size = 32 ∧
    Resnet50.module_config.epochs = 5 := by
  decide

/-- Claim C5: with more than one device in `gdev_list` the compiled and
trained model is `make_parallel(model_init, gdev_list)`; with exactly
one device it is the base model re-instantiated as a functional
`Model`, without replication. -/
theorem C5_model_replication (m : Mgpu.SeqModel) (d1 d2 d : String)
    (rest : List String) :
    Mgpu.model_for_training m (d1 :: d2 :: rest) =
      Mgpu.CompiledModel.parallel m (d1 :: d2 :: rest) ∧
    Mgpu.model_for_training m [d] = Mgpu.CompiledModel.functionalSingle m := by
  constructor
  · have h : (d1 :: d2 :: rest).length > 1 := by
      simp [List.length_cons]
    simp [Mgpu.model_for_training, h]
  · simp [Mgpu.model_for_training]

/-- Claim C6: in `train`, augmentation off means plain `fit` on the
train arrays with `shuffle=True` and the test arrays as validation
data; augmentation on means `fit_generator` on the augmenting
generator with `steps_per_epoch = x_train.shape[0] // batch_size`. -/
theorem C6_train_dispatch (n b e : Nat) :
    Alexnet.train false n b e =
      Alexnet.TrainCall.fit Alexnet.DataRef.xTrainRef Alexnet.DataRef.yTrainRef
        b e (some (Alexnet.DataRef.xTestRef, Alexnet.DataRef.yTestRef)) true ∧
    Alexnet.train true n b e =
      Alexnet.TrainCall.fitGenerator Alexnet.datagen Alexnet.DataRef.xTrainRef
        Alexnet.DataRef.yTrainRef b (n / b) e
        (some (Alexnet.DataRef.xTestRef, Alexnet.DataRef.yTestRef)) :=
  ⟨rfl, rfl⟩

/-- Claim C7: after label preprocessing in both CIFAR-10 scripts, the
label matrix has one one-hot row (length 10, exactly one 1, rest 0) per
image and exactly as many rows as there are images, provided the raw
labels delivered by the CIFAR-10 loader are aligned with the images and
lie in 0..9. -/
theorem C7_one_hot_labels
    (x_train : List Image) (y_train : List Nat)
    (x_test : List Image) (y_test : List Nat)
    (hxy : y_train.length = x_train.length)
    (hxy2 : y_test.length = x_test.length)
    (hlab : ∀ l ∈ y_train, l < 10)
    (hlab2 : ∀ l ∈ y_test, l < 10) :
    ((Alexnet.load_data ((x_train, y_train), (x_test, y_test))).2.1).length =
      ((Alexnet.load_data ((x_train, y_train), (x_test, y_test))).1.1).length ∧
    ((Alexnet.load_data ((x_train, y_train), (x_test, y_test))).2.2).length =
      ((Alexnet.load_data ((x_train, y_train), (x_test, y_test))).1.2).length ∧
    (∀ row ∈ (Alexnet.load_data ((x_train, y_train), (x_test, y_test))).2.1,
      isOneHotRow row = true) ∧
    (∀ row ∈ (Alexnet.load_data ((x_train, y_train), (x_test, y_test))).2.2,
      isOneHotRow row = true) ∧
    (Mgpu.preprocess x_train y_train).2.length =
      (Mgpu.preprocess x_train y_train).1.length ∧
    (∀ row ∈ (Mgpu.preprocess x_train y_train).2, isOneHotRow row = true) := by
  refine ⟨?_, ?_, ?_, ?_, ?_, ?_⟩
  · simp [Alexnet.load_data, to_categorical_length, hxy]
  · simp [Alexnet.load_data, to_categorical_length, hxy2]
  · intro row hrow
    exact mem_to_categorical_ten row y_train hlab hrow
  · intro row hrow
    exact mem_to_categorical_ten row y_test hlab2 hrow
  · simp [Mgpu.preprocess, to_categorical_length, hxy]
  · intro row hrow
    exact mem_to_categorical_ten row y_train hlab hrow

/-- Claim C7, witness: the preprocessing pipeline evaluated on a small
concrete dataset. -/
theorem C7_one_hot_labels_witness :
    ((Alexnet.load_data (([[1], [2]], [3, 7]), ([[0]], [9]))).2.1).length =
      ((Alexnet.load_data (([[1], [2]], [3, 7]), ([[0]], [9]))).1.1).length ∧
    ((Alexnet.load_data (([[1], [2]], [3, 7]), ([[0]], [9]))).2.2).length =
      ((Alexnet.load_data (([[1], [2]], [3, 7]), ([[0]], [9]))).1.2).length ∧
    (∀ row ∈ (Alexnet.load_data (([[1], [2]], [3, 7]), ([[0]], [9]))).2.1,
      isOneHotRow row = true) ∧
    (∀ row ∈ (Alexnet.load_data (([[1], [2]], [3, 7]), ([[0]], [9]))).2.2,
      isOneHotRow row = true) ∧
    (Mgpu.preprocess [[1], [2]] [3, 7]).2.length =
      (Mgpu.preprocess [[1], [2]] [3, 7]).1.length ∧
    (∀ row ∈ (Mgpu.preprocess [[1], [2]] [3, 7]).2, isOneHotRow row = true) :=
  C7_one_hot_labels [[1], [2]] [3, 7] [[0]] [9]
    (by decide) (by decide) (by decide) (by decide)

/-- Claim C8, counterexample: the thread serving the training
slice-input producer that the first, coordinator-less
`tf.train.start_queue_runners(sess=sess)` call spawns is started but is
never registered with the coordinator nor joined by `coord.join`. -/
theorem C8_counterexample :
    (⟨1, Mgpu.QRunner.sliceInputTrain, false⟩ : Mgpu.QThread) ∈ Mgpu.started_threads ∧
    (⟨1, Mgpu.QRunner.sliceInputTrain, false⟩ : Mgpu.QThread) ∉ Mgpu.coord_joined_threads := by
  decide

/-- Claim C8 (amended): exactly the threads of the second
`start_queue_runners` invocation — the coordinator-registered ones —
are joined by `coord.join`, and both `coord.request_stop` and the join
happen before the session is cleared; the first invocation's threads
stay outside the coordinated shutdown. -/
theorem C8_threads_amended :
    (∀ t : Mgpu.QThread, t ∈ Mgpu.coord_joined_threads ↔
      (t ∈ Mgpu.started_threads ∧ t.coordRegistered = true)) ∧
    Mgpu.main_event_trace.indexOf Mgpu.MainEvent.requestStop <
      Mgpu.main_event_trace.indexOf Mgpu.MainEvent.clearSession ∧
    Mgpu.main_event_trace.indexOf Mgpu.MainEvent.joinThreads <
      Mgpu.main_event_trace.indexOf Mgpu.MainEvent.clearSession := by
  refine ⟨?_, by decide, by decide⟩
  intro t
  rcases t with ⟨c, r, b⟩
  cases b <;>
    simp [Mgpu.coord_joined_threads, Mgpu.started_threads,
      Mgpu.start_queue_runners, Mgpu.graph_queue_runners, Mgpu.QThread.mk.injEq]

/-- Claim C9: for every GPU count `ngpus >= 1`, the global batch size
is `512 * ngpus`, the learning rate is `0.0001 * ngpus`, and
`steps_per_epoch` is the integer quotient of the training-sample count
by the global batch size, which drops exactly the trailing
`train_samples mod batch_size < batch_size` samples each epoch. -/
theorem C9_hyperparams (ngpus train_samples : Nat) (h : 1 ≤ ngpus) :
    Mgpu.batch_size ngpus = 512 * ngpus ∧
    Mgpu.lr ngpus = (1 / 10000 : ℚ) * ngpus ∧
    Mgpu.steps_per_epoch train_samples ngpus = train_samples / (512 * ngpus) ∧
    train_samples - Mgpu.steps_per_epoch train_samples ngpus * Mgpu.batch_size ngpus =
      train_samples % (512 * ngpus) ∧
    train_samples - Mgpu.steps_per_epoch train_samples ngpus * Mgpu.batch_size ngpus <
      Mgpu.batch_size ngpus := by
  have hb : 0 < 512 * ngpus := by positivity
  have hdm := Nat.div_add_mod train_samples (512 * ngpus)
  have hmod : train_samples % (512 * ngpus) < 512 * ngpus := Nat.mod_lt _ hb
  have hcomm : train_samples / (512 * ngpus) * (512 * ngpus) =
      (512 * ngpus) * (train_samples / (512 * ngpus)) := Nat.mul_comm _ _
  refine ⟨rfl, rfl, rfl, ?_, ?_⟩
  · show train_samples - train_samples / (512 * ngpus) * (512 * ngpus) = _
    omega
  · show train_samples - train_samples / (512 * ngpus) * (512 * ngpus) < 512 * ngpus
    omega

/-- Claim C9, witness: the hyperparameters evaluated at 2 GPUs and the
50000-sample CIFAR-10 training set. -/
theorem C9_hyperparams_witness :
    Mgpu.batch_size 2 = 512 * 2 ∧
    Mgpu.lr 2 = (1 / 10000 : ℚ) * 2 ∧
    Mgpu.steps_per_epoch 50000 2 = 50000 / (512 * 2) ∧
    50000 - Mgpu.steps_per_epoch 50000 2 * Mgpu.batch_size 2 = 50000 % (512 * 2) ∧
    50000 - Mgpu.steps_per_epoch 50000 2 * Mgpu.batch_size 2 < Mgpu.batch_size 2 :=
  C9_hyperparams 2 50000 (by decide)

/-- Claim C10: `make_model` never fails; it records a loaded weights
file exactly when `weights_file` is given and a file exists at that
path (a given but missing path yields the freshly initialised model),
and the returned layer stack is the same in every case. -/
theorem C10_make_model_weights (fe : String → Bool) (ti : Mgpu.TrainInput)
    (nc : Nat) (wf : Option String) :
    ∃ m : Mgpu.SeqModel, Mgpu.make_model fe ti nc wf = Except.ok m ∧
      (∀ f : String, m.loaded_from = some f ↔ (wf = some f ∧ fe f = true)) ∧
      m.layers = Mgpu.model_layers ti nc := by
  cases wf with
  | none =>
      refine ⟨_, rfl, ?_, rfl⟩
      intro f
      simp
  | some g =>
      by_cases hfe : fe g
      · refine ⟨{ layers := Mgpu.model_layers ti nc, loaded_from := some g }, ?_, ?_, rfl⟩
        · simp [Mgpu.make_model, Mgpu.load_weights, hfe]
        · intro f
          constructor
          · intro hf
            simp only [Option.some.injEq] at hf
            subst hf
            exact ⟨rfl, hfe⟩
          · rintro ⟨hwf, _⟩
            simp only [Option.some.injEq] at hwf
            subst hwf
            rfl
      · refine ⟨{ layers := Mgpu.model_layers ti nc, loaded_from := none }, ?_, ?_, rfl⟩
        · simp [Mgpu.make_model, hfe]
        · intro f
          constructor
          · intro hf
            simp at hf
          · rintro ⟨hwf, hfef⟩
            simp only [Option.some.injEq] at hwf
            subst hwf
            exact absurd hfef hfe
